import Mathlib

/-!
Verification of the metrics-monitor polling scheduler.

The development shallowly embeds the program under `src/metrics_monitor/`:
pure computations become Lean functions; the effects of one probe cycle
(HTTP request, semaphore, database writes) become explicit state passing,
with the outcome of each external effect supplied as a parameter; the
concurrent gate discipline becomes a step relation over a system state.
-/

namespace MetricsMonitor

/-! ## Regular expressions

`main.py` evaluates the configured pattern with `re.search`.  The engine
below models Python regex search for the pattern subset exercised by the
monitor configurations: literal characters, the escape `\d` (digit class)
and escaped metacharacters, and the bounded repetition `\x7bm,n\x7d`.
`search` implements match-anywhere semantics (a match may start at any
position and cover any substring), exactly the semantics of `re.search`
as opposed to `re.fullmatch`.
-/

inductive Regex where
  | fail : Regex
  | eps : Regex
  | lit : Char → Regex
  | digit : Regex
  | alt : Regex → Regex → Regex
  | cat : Regex → Regex → Regex
  | star : Regex → Regex
deriving DecidableEq, Repr

/-- Whether the regex accepts the empty string. -/
def nullable : Regex → Bool
  | .fail => false
  | .eps => true
  | .lit _ => false
  | .digit => false
  | .alt a b => nullable a || nullable b
  | .cat a b => nullable a && nullable b
  | .star _ => true

/-- Brzozowski derivative with respect to one character. -/
def deriv : Regex → Char → Regex
  | .fail, _ => .fail
  | .eps, _ => .fail
  | .lit c, d => if c = d then .eps else .fail
  | .digit, d => if d.isDigit then .eps else .fail
  | .alt a b, d => .alt (deriv a d) (deriv b d)
  | .cat a b, d =>
    if nullable a then .alt (.cat (deriv a d) b) (deriv b d)
    else .cat (deriv a d) b
  | .star r, d => .cat (deriv r d) (.star r)

/-- Whether the regex matches the whole character list. -/
def matchesFull (r : Regex) : List Char → Bool
  | [] => nullable r
  | c :: cs => matchesFull (deriv r c) cs

/-- Whether the regex matches some prefix of the character list. -/
def matchesSomePrefix (r : Regex) : List Char → Bool
  | [] => nullable r
  | c :: cs => nullable r || matchesSomePrefix (deriv r c) cs

/-- Match-anywhere search: whether the regex matches a substring starting
at some position, as `re.search` does. -/
def search (r : Regex) : List Char → Bool
  | [] => nullable r
  | c :: cs => matchesSomePrefix r (c :: cs) || search r cs

theorem matchesFull_nil (r : Regex) : matchesFull r [] = nullable r := rfl

theorem matchesFull_cons (r : Regex) (c : Char) (cs : List Char) :
    matchesFull r (c :: cs) = matchesFull (deriv r c) cs := rfl

theorem matchesSomePrefix_cons (r : Regex) (c : Char) (cs : List Char) :
    matchesSomePrefix r (c :: cs) =
      (nullable r || matchesSomePrefix (deriv r c) cs) := rfl

theorem search_cons (r : Regex) (c : Char) (cs : List Char) :
    search r (c :: cs) = (matchesSomePrefix r (c :: cs) || search r cs) := rfl

/-- `matchesSomePrefix` is correct: it reports exactly the existence of a
prefix fully matched by the regex. -/
theorem matchesSomePrefix_iff (r : Regex) (cs : List Char) :
    matchesSomePrefix r cs = true ↔
      ∃ pre post, pre ++ post = cs ∧ matchesFull r pre = true := by
  induction cs generalizing r with
  | nil =>
    constructor
    · intro h
      exact ⟨[], [], rfl, h⟩
    · rintro ⟨pre, post, hsplit, hm⟩
      rcases List.append_eq_nil.mp hsplit with ⟨hpre, _⟩
      subst hpre
      exact hm
  | cons c cs ih =>
    constructor
    · intro h
      rw [matchesSomePrefix_cons] at h
      simp only [Bool.or_eq_true] at h
      rcases h with hnull | htail
      · exact ⟨[], c :: cs, rfl, hnull⟩
      · rcases (ih (deriv r c)).mp htail with ⟨pre, post, hsplit, hm⟩
        refine ⟨c :: pre, post, by simp [hsplit], ?_⟩
        rw [matchesFull_cons]
        exact hm
    · rintro ⟨pre, post, hsplit, hm⟩
      rw [matchesSomePrefix_cons]
      simp only [Bool.or_eq_true]
      cases pre with
      | nil =>
        simp only [List.nil_append] at hsplit
        subst hsplit
        exact Or.inl hm
      | cons p ps =>
        simp only [List.cons_append, List.cons.injEq] at hsplit
        obtain ⟨hp, hps⟩ := hsplit
        subst hp
        rw [matchesFull_cons] at hm
        exact Or.inr ((ih (deriv r p)).mpr ⟨ps, post, hps, hm⟩)

/-- `search` is correct: it reports exactly the existence of a substring
(at any position) fully matched by the regex — the match-anywhere
semantics of `re.search`. -/
theorem search_iff_exists_substring (r : Regex) (cs : List Char) :
    search r cs = true ↔
      ∃ pre mid post, pre ++ mid ++ post = cs ∧ matchesFull r mid = true := by
  induction cs with
  | nil =>
    constructor
    · intro h
      exact ⟨[], [], [], rfl, h⟩
    · rintro ⟨pre, mid, post, hsplit, hm⟩
      rcases List.append_eq_nil.mp hsplit with ⟨h1, hpost⟩
      rcases List.append_eq_nil.mp h1 with ⟨hpre, hmid⟩
      subst hmid
      exact hm
  | cons c cs ih =>
    rw [search_cons]
    simp only [Bool.or_eq_true]
    constructor
    · rintro (hpre | hrest)
      · rcases (matchesSomePrefix_iff r (c :: cs)).mp hpre with ⟨mid, post, hsplit, hm⟩
        exact ⟨[], mid, post, by simpa using hsplit, hm⟩
      · rcases ih.mp hrest with ⟨pre, mid, post, hsplit, hm⟩
        exact ⟨c :: pre, mid, post, by simp [hsplit], hm⟩
    · rintro ⟨pre, mid, post, hsplit, hm⟩
      cases pre with
      | nil =>
        exact Or.inl ((matchesSomePrefix_iff r (c :: cs)).mpr
          ⟨mid, post, by simpa using hsplit, hm⟩)
      | cons p ps =>
        simp only [List.cons_append, List.cons.injEq] at hsplit
        obtain ⟨hp, hps⟩ := hsplit
        exact Or.inr (ih.mpr ⟨ps, mid, post, hps, hm⟩)

/-! ### Pattern parsing

The characters below are written by code point to keep literal braces and
metacharacters out of string literals. -/

/-- Characters with special meaning in Python regular expressions. -/
def metaChars : List Char :=
  [46, 94, 36, 42, 43, 63, 123, 125, 91, 93, 92, 124, 40, 41].map Char.ofNat

def backslashChar : Char := Char.ofNat 92

def lbraceChar : Char := Char.ofNat 123

def rbraceChar : Char := Char.ofNat 125

def commaChar : Char := Char.ofNat 44

def digitsToNat (ds : List Char) : Nat :=
  ds.foldl (fun n c => 10 * n + (c.toNat - 48)) 0

/-- Parse the body of a bounded repetition after its opening brace:
low bound digits, comma, high bound digits, closing brace. -/
def parseBound (cs : List Char) : Option (Nat × Nat × List Char) :=
  let s1 := cs.span Char.isDigit
  if s1.1.isEmpty then none
  else
    match s1.2 with
    | c :: rest =>
      if c = commaChar then
        let s2 := rest.span Char.isDigit
        if s2.1.isEmpty then none
        else
          match s2.2 with
          | d :: rest2 =>
            if d = rbraceChar then some (digitsToNat s1.1, digitsToNat s2.1, rest2)
            else none
          | [] => none
      else none
    | [] => none

/-- `r` repeated exactly `n` times. -/
def repCat (r : Regex) : Nat → Regex
  | 0 => .eps
  | n + 1 => .cat r (repCat r n)

/-- `r` repeated at most `n` times. -/
def optRep (r : Regex) : Nat → Regex
  | 0 => .eps
  | n + 1 => .cat (.alt r .eps) (optRep r n)

/-- `r` repeated at least `m` and at most `n` times: the bounded
repetition written brace `m` comma `n` brace in pattern syntax. -/
def repRange (r : Regex) (m n : Nat) : Regex :=
  .cat (repCat r m) (optRep r (n - m))

/-- One left-to-right pass over the pattern, accumulating parsed atoms in
reverse order so a bounded repetition can attach to the previous atom.
The fuel argument only bounds recursion depth; one unit is spent per
consumed character, so `length + 1` units always suffice. -/
def parseLoop : Nat → List Char → List Regex → Option (List Regex)
  | 0, _, _ => none
  | _ + 1, [], acc => some acc
  | fuel + 1, c :: rest, acc =>
    if c = backslashChar then
      match rest with
      | [] => none
      | d :: rest2 =>
        if d = 'd' then parseLoop fuel rest2 (.digit :: acc)
        else if metaChars.contains d then parseLoop fuel rest2 (.lit d :: acc)
        else none
    else if c = lbraceChar then
      match acc with
      | [] => none
      | a :: acc2 =>
        match parseBound rest with
        | some (m, n, rest2) =>
          if m ≤ n then parseLoop fuel rest2 (repRange a m n :: acc2) else none
        | none => none
    else if metaChars.contains c then none
    else parseLoop fuel rest (.lit c :: acc)

def catList : List Regex → Regex
  | [] => .eps
  | r :: rs => .cat r (catList rs)

/-- Parse a pattern string of the modelled subset into a regex. -/
def parsePattern (s : String) : Option Regex :=
  (parseLoop (s.length + 1) s.data []).map (fun acc => catList acc.reverse)

/-- Model of the truthiness of `re.search(pattern, content)` as used at
`main.py` line 113: whether the pattern matches anywhere in the content.
A pattern outside the modelled subset is treated as matching nothing. -/
def re_search (pattern content : String) : Bool :=
  match parsePattern pattern with
  | some r => search r content.data
  | none => false


/-! ## Data model

`models.py` declares the two pydantic models.  Timestamps are modelled as
integers (an abstract clock reading); `response_time` is the difference of
two clock readings. -/

/-- The exception kinds that can arise during one probe cycle, each a
subclass of Python `Exception`:
`clientError` is `aiohttp.ClientError`, `postgresError` is
`asyncpg.PostgresError`, `typeError` is `TypeError`. -/
inductive PyError where
  | clientError : PyError
  | postgresError : PyError
  | typeError : PyError
deriving DecidableEq, Repr

/-- `MonitorParams` (`models.py` lines 6-11): url, interval, optional
regexp pattern. -/
structure MonitorParams where
  url : String
  interval : Int
  regexp_pattern : Option String
deriving DecidableEq, Repr

/-- Pydantic validation of `MonitorParams` construction.  The model
declares `url : str`, `interval : int`, `regexp_pattern : str | None = None`
with no value constraint (no `Field(gt=0)`, no validator), so with
arguments of the declared types validation always succeeds. -/
def MonitorParams.validate (url : String) (interval : Int)
    (regexp_pattern : Option String) : Except PyError MonitorParams :=
  .ok ⟨url, interval, regexp_pattern⟩

/-- `WebsiteMetrics` (`models.py` lines 14-30): the fields of one
`website_metrics` row. -/
structure WebsiteMetrics where
  url : String
  request_timestamp : Int
  response_time : Int
  status_code : Int
  pattern_found : Bool
deriving DecidableEq, Repr

/-- The observable part of an `aiohttp.ClientResponse`: status code and
decoded body text. -/
structure HttpResponse where
  status : Int
  body : String
deriving DecidableEq, Repr

/-! ## Probe: `prepare_website_metrics` (`main.py` lines 87-129)

The function makes exactly one clock reading, `datetime.now()` at line
106, supplied here as `now`; `start_time` was read by the caller just
before issuing the request.  Note the order in the source: the elapsed
time is computed at line 106, BEFORE `await response.text()` at line 108
reads the body. -/

def prepare_website_metrics (response : HttpResponse) (start_time : Int)
    (now : Int) (url : String) (regexp_pattern : Option String) :
    WebsiteMetrics :=
  let response_time := now - start_time
  let status_code := response.status
  let content := response.body
  -- `if regexp_pattern:` — Python truthiness: both None and the empty
  -- string are falsy, so no regex search happens for either.
  let pattern_found :=
    match regexp_pattern with
    | none => false
    | some p => if p = "" then false else re_search p content
  { url := url
    request_timestamp := start_time
    response_time := response_time
    status_code := status_code
    pattern_found := pattern_found }

/-! ## Storage Sink: `db_operations.py` -/

/-- One column of a table definition. -/
structure ColumnDef where
  name : String
  sqlType : String
deriving DecidableEq, Repr

/-- One table definition held by the database schema. -/
structure TableDef where
  name : String
  columns : List ColumnDef
deriving DecidableEq, Repr

/-- The schema state of the backing store: the table definitions that
exist. -/
structure DbSchema where
  tables : List TableDef
deriving DecidableEq, Repr

/-- The columns of the `website_metrics` table exactly as in the SQL text
of `create_table` (`db_operations.py` lines 33-42). -/
def website_metrics_columns : List ColumnDef :=
  [⟨"id", "SERIAL PRIMARY KEY"⟩,
   ⟨"url", "TEXT NOT NULL"⟩,
   ⟨"request_timestamp", "TIMESTAMP NOT NULL"⟩,
   ⟨"response_time", "FLOAT NOT NULL"⟩,
   ⟨"status_code", "INTEGER NOT NULL"⟩,
   ⟨"pattern_found", "BOOLEAN NOT NULL"⟩]

def website_metrics_table : TableDef :=
  ⟨"website_metrics", website_metrics_columns⟩

/-- Semantics of executing `CREATE TABLE` against the store: if a table of
that name exists, the statement errors unless `IF NOT EXISTS` was given,
in which case it is a no-op; otherwise the definition is added. -/
def execCreateTable (ifNotExists : Bool) (t : TableDef) (db : DbSchema) :
    Except PyError DbSchema :=
  if db.tables.any (fun u => u.name == t.name) then
    if ifNotExists then .ok db else .error .postgresError
  else .ok ⟨db.tables ++ [t]⟩

/-- `create_table` (`db_operations.py` lines 24-43): executes
`CREATE TABLE IF NOT EXISTS website_metrics (...)`. -/
def create_table (db : DbSchema) : Except PyError DbSchema :=
  execCreateTable true website_metrics_table db

/-- The body of `save_metrics` (`db_operations.py` lines 46-76): one
`INSERT` appending one row built from the five field arguments.  Note the
signature in the source: `save_metrics(url, request_timestamp,
response_time, status_code, pattern_found, conn)` — six parameters. -/
def save_metrics (url : String) (request_timestamp : Int)
    (response_time : Int) (status_code : Int) (pattern_found : Bool)
    (rows : List WebsiteMetrics) : List WebsiteMetrics :=
  rows ++ [⟨url, request_timestamp, response_time, status_code, pattern_found⟩]

/-- Number of parameters of `save_metrics` as defined in
`db_operations.py` lines 46-53. -/
def save_metrics_param_count : Nat := 6

/-- Number of positional arguments at the call site
`save_metrics(metrics, conn)` in `main.py` line 74. -/
def save_metrics_call_arg_count : Nat := 2

/-- Python positional-call check: a call supplying fewer arguments than
the function has required parameters raises `TypeError` before the
function body runs. -/
def callArityOk (paramCount argCount : Nat) : Bool := paramCount == argCount

/-! ## Monitor Loop: `check_website_once` (`main.py` lines 41-84)

One probe cycle is embedded as a function of
- the monitor parameters,
- the two clock readings `t0` (line 59, before `session.get`) and `now`
  (line 106, inside `prepare_website_metrics`),
- the outcome of the HTTP request,
- the outcome of `pool.acquire()`,
all threaded through an explicit cycle state holding the available
semaphore permits and the rows of the `website_metrics` table. -/

/-- The outcome of `session.get(url)` together with reading the response:
either a response (status and body) or an `aiohttp.ClientError`. -/
inductive NetworkOutcome where
  | ok : Int → String → NetworkOutcome
  | clientError : NetworkOutcome
deriving DecidableEq, Repr

/-- The shared mutable state one probe cycle can touch: the semaphore
value (available permits) and the stored rows. -/
structure CycleState where
  sem : Nat
  rows : List WebsiteMetrics
deriving DecidableEq, Repr

/-- How one call of `check_website_once` ends: suspended forever waiting
for the gate, returned normally, or terminated by an exception escaping
the function. -/
inductive CycleResult where
  | blocked : CycleResult
  | returned : CycleState → CycleResult
  | raised : PyError → CycleState → CycleResult
deriving DecidableEq, Repr

/-- The `try` block of `check_website_once` (`main.py` lines 57-75).
Returns `none` when the cycle suspends forever on the semaphore (no peer
task would ever release it in this single-task embedding), otherwise the
final state together with `.ok` for normal completion or `.error e` for
an exception leaving the block.  On the exception paths the two
`async with` context managers have already released what they acquired. -/
def check_website_once_body (mp : MonitorParams) (t0 now : Int)
    (net : NetworkOutcome) (acquireOk : Bool) (s : CycleState) :
    Option (CycleState × Except PyError Unit) :=
  match net with
  | .clientError => some (s, .error .clientError)
  | .ok status body =>
    let metrics :=
      prepare_website_metrics ⟨status, body⟩ t0 now mp.url mp.regexp_pattern
    -- `async with sem, pool.acquire() as conn:` — acquire the semaphore
    if s.sem = 0 then none
    else
      let s1 : CycleState := { s with sem := s.sem - 1 }
      if acquireOk then
        -- the call `save_metrics(metrics, conn)` supplies 2 positional
        -- arguments to the 6-parameter `save_metrics`
        if callArityOk save_metrics_param_count save_metrics_call_arg_count then
          let s2 : CycleState :=
            { s1 with
              rows := save_metrics metrics.url metrics.request_timestamp
                metrics.response_time metrics.status_code
                metrics.pattern_found s1.rows }
          some ({ s2 with sem := s2.sem + 1 }, .ok ())
        else
          -- TypeError raised at the call; `async with sem` releases the
          -- permit while the exception unwinds
          some ({ s1 with sem := s1.sem + 1 }, .error .typeError)
      else
        -- `pool.acquire()` raised `asyncpg.PostgresError`; the semaphore
        -- context manager still releases the permit
        some ({ s1 with sem := s1.sem + 1 }, .error .postgresError)

/-- `check_website_once` (`main.py` lines 41-84): the `try` block wrapped
in the three `except` clauses, each of which only logs.  Every modelled
exception kind is an `Exception` subclass, so each is caught by one of
`except aiohttp.ClientError`, `except asyncpg.PostgresError`,
`except Exception`. -/
def check_website_once (mp : MonitorParams) (t0 now : Int)
    (net : NetworkOutcome) (acquireOk : Bool) (s : CycleState) :
    CycleResult :=
  match check_website_once_body mp t0 now net acquireOk s with
  | none => .blocked
  | some (s1, .ok ()) => .returned s1
  | some (s1, .error .clientError) => .returned s1
  | some (s1, .error .postgresError) => .returned s1
  | some (s1, .error .typeError) => .returned s1

/-- The per-cycle environment of one iteration of the `while True` loop
in `check_website` (`main.py` lines 36-38). -/
structure CycleEnv where
  t0 : Int
  now : Int
  net : NetworkOutcome
  acquireOk : Bool
deriving DecidableEq, Repr

/-- A finite prefix of the `while True` loop of `check_website`
(`main.py` lines 36-38): sleep, run one cycle, continue with the rest.
`none` models the loop never reaching the later cycles (suspension or an
escaping exception, neither of which occurs). -/
def check_website_run (mp : MonitorParams) :
    List CycleEnv → CycleState → Option CycleState
  | [], s => some s
  | e :: rest, s =>
    match check_website_once mp e.t0 e.now e.net e.acquireOk s with
    | .returned s1 => check_website_run mp rest s1
    | .blocked => none
    | .raised _ _ => none

/-! ## Concurrency Gate as a transition system

`main` builds one `asyncio.Semaphore` of capacity
`semaphore_max_concurrent` (`main.py` line 155) shared by every
`check_website` task.  Each task cycles through the phases of §4.4 of the
design: sleeping, probing, and the gated write section entered at
`async with sem, pool.acquire() as conn:` (`main.py` line 72) and left
when the context managers unwind — on success and on exception alike.
The step relation below is the interleaving semantics of `M` such tasks
around one semaphore. -/

/-- The phase one monitor task is in. -/
inductive Phase where
  | sleeping : Phase
  | probing : Phase
  | writing : Phase
deriving DecidableEq, Repr

/-- Global state: the semaphore value and the phase of every task. -/
structure GateSystem where
  sem : Nat
  tasks : List Phase
deriving DecidableEq, Repr

/-- Startup state (`main.py` lines 155-175): semaphore at capacity `cap`,
`m` tasks all about to sleep. -/
def initSystem (cap m : Nat) : GateSystem :=
  ⟨cap, List.replicate m .sleeping⟩

/-- One interleaving step of the system.  A task enters the write section
only by decrementing a positive semaphore, and every way out of the write
section increments it (release on all exit paths). -/
inductive GateStep : GateSystem → GateSystem → Prop
  | wake (sem : Nat) (tasks : List Phase) (i : Nat)
      (h : tasks.get? i = some .sleeping) :
      GateStep ⟨sem, tasks⟩ ⟨sem, tasks.set i .probing⟩
  | probeFail (sem : Nat) (tasks : List Phase) (i : Nat)
      (h : tasks.get? i = some .probing) :
      GateStep ⟨sem, tasks⟩ ⟨sem, tasks.set i .sleeping⟩
  | enterWrite (sem : Nat) (tasks : List Phase) (i : Nat)
      (h : tasks.get? i = some .probing) (hs : 0 < sem) :
      GateStep ⟨sem, tasks⟩ ⟨sem - 1, tasks.set i .writing⟩
  | exitWrite (sem : Nat) (tasks : List Phase) (i : Nat)
      (h : tasks.get? i = some .writing) :
      GateStep ⟨sem, tasks⟩ ⟨sem + 1, tasks.set i .sleeping⟩

/-- Reachability from a starting state through interleaving steps. -/
inductive GateReachable (s0 : GateSystem) : GateSystem → Prop
  | refl : GateReachable s0 s0
  | step {s1 s2 : GateSystem} :
      GateReachable s0 s1 → GateStep s1 s2 → GateReachable s0 s2

/-- The number of tasks currently inside the gated write section. -/
def writersInFlight (g : GateSystem) : Nat :=
  g.tasks.countP (fun p => p == Phase.writing)

/-- The gate invariant: available permits plus writers in flight equal
the capacity. -/
def gateInv (cap : Nat) (g : GateSystem) : Prop :=
  g.sem + writersInFlight g = cap

theorem countP_set_of_get (p : Phase → Bool) (l : List Phase) (i : Nat)
    (a b : Phase) (h : l.get? i = some a) :
    (l.set i b).countP p + (if p a then 1 else 0) =
      l.countP p + (if p b then 1 else 0) := by
  induction l generalizing i with
  | nil => simp at h
  | cons x xs ih =>
    cases i with
    | zero =>
      simp only [List.get?] at h
      injection h with h
      subst h
      simp only [List.set, List.countP_cons]
      omega
    | succ j =>
      simp only [List.get?] at h
      simp only [List.set, List.countP_cons]
      have := ih j h
      omega

theorem gateInv_init (cap m : Nat) : gateInv cap (initSystem cap m) := by
  simp [gateInv, initSystem, writersInFlight, List.countP_eq_zero]

theorem gateInv_step {cap : Nat} {g g1 : GateSystem}
    (hinv : gateInv cap g) (hstep : GateStep g g1) : gateInv cap g1 := by
  cases hstep with
  | wake sem tasks i h =>
    have hc := countP_set_of_get (fun p => p == Phase.writing) tasks i
      Phase.sleeping Phase.probing h
    simp only [gateInv, writersInFlight] at hinv ⊢
    simp at hc
    omega
  | probeFail sem tasks i h =>
    have hc := countP_set_of_get (fun p => p == Phase.writing) tasks i
      Phase.probing Phase.sleeping h
    simp only [gateInv, writersInFlight] at hinv ⊢
    simp at hc
    omega
  | enterWrite sem tasks i h hs =>
    have hc := countP_set_of_get (fun p => p == Phase.writing) tasks i
      Phase.probing Phase.writing h
    simp only [gateInv, writersInFlight] at hinv ⊢
    simp at hc
    omega
  | exitWrite sem tasks i h =>
    have hc := countP_set_of_get (fun p => p == Phase.writing) tasks i
      Phase.writing Phase.sleeping h
    simp only [gateInv, writersInFlight] at hinv ⊢
    simp at hc
    omega

theorem gateInv_reachable {cap m : Nat} {g : GateSystem}
    (h : GateReachable (initSystem cap m) g) : gateInv cap g := by
  induction h with
  | refl => exact gateInv_init cap m
  | step _ hstep ih => exact gateInv_step ih hstep

/-! ## Claims -/

/-- The instants at which the three time-relevant events of one probe
cycle happen, in source order: `t0` is `datetime.now()` before
`session.get` (`main.py` line 59); `tNow` is `datetime.now()` inside
`prepare_website_metrics` (`main.py` line 106), taken before the body is
read; `tBody` is the instant `await response.text()` (`main.py` line 108)
finishes reading the full body. -/
structure ProbeTimeline where
  t0 : Int
  tNow : Int
  tBody : Int
deriving DecidableEq, Repr

/-- A timeline is well formed when the clock does not run backwards
across the three events, which happen in this order. -/
def ProbeTimeline.wf (tl : ProbeTimeline) : Prop :=
  tl.t0 ≤ tl.tNow ∧ tl.tNow ≤ tl.tBody

/-- C3 counterexample: the claim says response_time equals the delta from
request start to body-read completion.  Take a well-formed cycle whose
clock reads 0 at request start, 5 when `prepare_website_metrics` computes
the elapsed time, and 9 when body reading finishes: the recorded
response_time is 5, not the claimed 9 - 0, because the source computes
the delta at line 106, before `await response.text()` at line 108. -/
theorem c3_response_time_not_body_read_delta :
    ProbeTimeline.wf ⟨0, 5, 9⟩
    ∧ (prepare_website_metrics ⟨200, "ok"⟩ 0 5 "http://example.test"
        none).response_time ≠ 9 - 0 := by
  constructor
  · exact ⟨by decide, by decide⟩
  · decide

/-- C3 (amended): for every well-formed probe timeline, the field
request_timestamp is the request-start instant, response_time equals
the elapsed time from request start to the instant the elapsed time is
computed — which is after the response arrives but BEFORE the body is
read — it is nonnegative, and under a frozen clock it equals 0. -/
theorem c3_response_time_elapsed_at_computation (tl : ProbeTimeline)
    (h : tl.wf) (resp : HttpResponse) (url : String) (pat : Option String) :
    (prepare_website_metrics resp tl.t0 tl.tNow url pat).request_timestamp
        = tl.t0
    ∧ (prepare_website_metrics resp tl.t0 tl.tNow url pat).response_time
        = tl.tNow - tl.t0
    ∧ 0 ≤ (prepare_website_metrics resp tl.t0 tl.tNow url pat).response_time
    ∧ (tl.tNow = tl.t0 →
        (prepare_website_metrics resp tl.t0 tl.tNow url pat).response_time
          = 0) := by
  obtain ⟨h1, h2⟩ := h
  refine ⟨rfl, rfl, ?_, ?_⟩
  · show (0 : Int) ≤ tl.tNow - tl.t0
    omega
  · intro he
    show tl.tNow - tl.t0 = 0
    omega

/-- Witness for C3 (amended) at a frozen clock: all three instants 3. -/
theorem c3_response_time_witness :
    (prepare_website_metrics ⟨200, "body"⟩ 3 3 "http://example.test"
        none).response_time = 0 :=
  (c3_response_time_elapsed_at_computation ⟨3, 3, 3⟩ ⟨by decide, by decide⟩
    ⟨200, "body"⟩ "http://example.test" none).2.2.2 rfl

/-- C4 counterexample: with the configured pattern being the empty string
and body "Example", the code reports pattern_found = false, although the
empty pattern parses and matches somewhere in the body (an empty match at
position 0, as `re.search` would find), so the claimed iff fails for this
configured pattern. -/
theorem c4_empty_pattern_breaks_iff :
    (prepare_website_metrics ⟨200, "Example"⟩ 0 0 "http://example.test"
        (some "")).pattern_found = false
    ∧ parsePattern "" = some .eps
    ∧ search .eps "Example".data = true
    ∧ ∃ pre mid post, pre ++ mid ++ post = "Example".data
        ∧ matchesFull Regex.eps mid = true := by
  refine ⟨rfl, rfl, by decide, [], [], "Example".data, by decide, rfl⟩

/-- C4 (amended): for a probe cycle with no configured pattern,
pattern_found is false regardless of the body; for a configured
NON-EMPTY pattern of the modelled subset parsing to regex `r`,
pattern_found is true iff `r` fully matches some substring of the decoded
body — match-anywhere, not full-match.  The amendment excludes the empty
pattern, which Python truthiness routes down the no-pattern branch. -/
theorem c4_pattern_found_iff_match_anywhere
    (resp : HttpResponse) (t0 now : Int) (url p : String) (r : Regex)
    (hp : ¬ p = "") (hr : parsePattern p = some r) :
    ((prepare_website_metrics resp t0 now url (some p)).pattern_found = true
      ↔ ∃ pre mid post, pre ++ mid ++ post = resp.body.data
          ∧ matchesFull r mid = true)
    ∧ (prepare_website_metrics resp t0 now url none).pattern_found
        = false := by
  constructor
  · have hpf : (prepare_website_metrics resp t0 now url (some p)).pattern_found
        = re_search p resp.body := by
      simp [prepare_website_metrics, hp]
    rw [hpf]
    simp only [re_search, hr]
    exact search_iff_exists_substring r resp.body.data
  · rfl

def health_pattern : String := "Health: \\d\x7b2,3\x7d%"

def health_regex : Regex := (parsePattern health_pattern).getD .fail

/-- Witness for C4 (amended): the example pattern of the spec and the body
"Health: 100%", on which pattern_found comes out true. -/
theorem c4_pattern_found_witness :
    (prepare_website_metrics ⟨200, "Health: 100%"⟩ 0 0 "http://example.test"
        (some health_pattern)).pattern_found = true :=
  (c4_pattern_found_iff_match_anywhere ⟨200, "Health: 100%"⟩ 0 0
      "http://example.test" health_pattern health_regex (by decide)
      (by decide)).1.mpr
    ⟨[], "Health: 100%".data, [], by decide, by decide⟩

/-- C9 counterexample: constructing MonitorParams with interval 0 — an
interval ≤ 0 — succeeds, contradicting the claim that such a construction
fails: the pydantic model declares `interval : int` with no positivity
constraint. -/
theorem c9_nonpositive_interval_accepted :
    MonitorParams.validate "http://example.test" 0 none
      = .ok ⟨"http://example.test", 0, none⟩ := rfl

/-- C9 (amended): MonitorParams validation only constrains the shapes of
the field types; with arguments of the declared types it succeeds for
every integer interval, including non-positive ones, so monitor specs
with interval ≤ 0 can exist. -/
theorem c9_validation_always_succeeds (url : String) (interval : Int)
    (pat : Option String) :
    MonitorParams.validate url interval pat = .ok ⟨url, interval, pat⟩ := rfl

/-- C10: with the configured pattern present but equal to the empty
string, pattern_found is false for every response body — exactly the
behaviour for an absent pattern, because `if regexp_pattern:` treats the
empty string as falsy and skips the regex search — even though the empty
pattern itself parses and would match every body. -/
theorem c10_empty_pattern_never_found (resp : HttpResponse) (t0 now : Int)
    (url : String) :
    (prepare_website_metrics resp t0 now url (some "")).pattern_found
        = false
    ∧ (prepare_website_metrics resp t0 now url none).pattern_found = false
    ∧ parsePattern "" = some .eps
    ∧ search .eps resp.body.data = true := by
  refine ⟨rfl, rfl, rfl, ?_⟩
  cases hb : resp.body.data with
  | nil => rfl
  | cons c cs =>
    rw [search_cons, matchesSomePrefix_cons]
    rfl

def c1_spec : MonitorParams :=
  ⟨"http://example.test", 1, some "Health: \\d\x7b2,3\x7d%"⟩

/-- C1: the claim expects that after one completed probe cycle against an
endpoint answering body "Health: 100%" with status 200, the store holds
exactly one row with status_code 200, pattern_found true and nonnegative
response_time.  Evaluating the code on exactly that scenario shows the
probe computes that record (status 200, pattern found, response_time 0),
but the cycle completes with ZERO rows stored: the call
`save_metrics(metrics, conn)` passes 2 positional arguments to the
6-parameter `save_metrics`, so Python raises TypeError before any insert,
and the blanket `except Exception` swallows it. -/
theorem c1_end_to_end_single_cycle_writes_nothing :
    check_website_once c1_spec 0 0 (.ok 200 "Health: 100%") true ⟨1, []⟩
      = .returned ⟨1, []⟩
    ∧ (prepare_website_metrics ⟨200, "Health: 100%"⟩ 0 0 c1_spec.url
        c1_spec.regexp_pattern).status_code = 200
    ∧ (prepare_website_metrics ⟨200, "Health: 100%"⟩ 0 0 c1_spec.url
        c1_spec.regexp_pattern).pattern_found = true
    ∧ 0 ≤ (prepare_website_metrics ⟨200, "Health: 100%"⟩ 0 0 c1_spec.url
        c1_spec.regexp_pattern).response_time
    ∧ callArityOk save_metrics_param_count save_metrics_call_arg_count
        = false := by
  refine ⟨by decide, by decide, by decide, by decide, by decide⟩

/-- C2: a probe cycle whose write phase fails with a PersistenceError
(`asyncpg.PostgresError`, here raised by `pool.acquire()` — the only
reachable source of one, since `save_metrics` never runs, see C1) writes
zero rows, returns the semaphore to its pre-acquisition value, and
returns control to the loop (back to sleeping); moreover on EVERY exit
path of the cycle, success or failure, the semaphore value is restored. -/
theorem c2_persistence_failure_no_rows_no_permit_leak
    (mp : MonitorParams) (t0 now status : Int) (body : String)
    (s : CycleState) (h : 0 < s.sem) :
    check_website_once mp t0 now (.ok status body) false s = .returned s
    ∧ ∀ net aq s1, check_website_once mp t0 now net aq s = .returned s1 →
        s1.sem = s.sem := by
  obtain ⟨sv, rows⟩ := s
  simp only at h
  have hz : ¬ sv = 0 := by omega
  constructor
  · unfold check_website_once check_website_once_body
    simp only [if_neg hz, Bool.false_eq_true, if_false]
    rw [Nat.sub_add_cancel h]
  · intro net aq s1 hret
    cases net with
    | clientError =>
      unfold check_website_once check_website_once_body at hret
      simp only [CycleResult.returned.injEq] at hret
      rw [← hret]
    | ok st bd =>
      unfold check_website_once check_website_once_body at hret
      simp only [if_neg hz] at hret
      cases aq with
      | false =>
        simp only [Bool.false_eq_true, if_false,
          CycleResult.returned.injEq] at hret
        rw [← hret]
        simp [Nat.sub_add_cancel h]
      | true =>
        simp only [if_true, callArityOk, save_metrics_param_count,
          save_metrics_call_arg_count] at hret
        simp only [show ((6 : Nat) == 2) = false from rfl,
          Bool.false_eq_true, if_false, CycleResult.returned.injEq] at hret
        rw [← hret]
        simp [Nat.sub_add_cancel h]

/-- Witness for C2 at semaphore value 1: the persistence-failure cycle
returns the untouched state. -/
theorem c2_persistence_failure_witness :
    check_website_once ⟨"http://example.test", 1, none⟩ 0 0
      (.ok 200 "body") false ⟨1, []⟩ = .returned ⟨1, []⟩ :=
  (c2_persistence_failure_no_rows_no_permit_leak
    ⟨"http://example.test", 1, none⟩ 0 0 200 "body" ⟨1, []⟩ (by decide)).1

/-- C5: a probe cycle whose HTTP request fails with a NetworkError
(`aiohttp.ClientError`) writes zero rows and leaves the whole cycle state
untouched, and the monitor loop resumes: running the loop on that cycle
followed by any remaining cycles equals running it on the remaining
cycles alone. -/
theorem c5_network_error_zero_rows_loop_resumes
    (mp : MonitorParams) (e : CycleEnv) (rest : List CycleEnv)
    (s : CycleState) (h : e.net = .clientError) :
    check_website_once mp e.t0 e.now e.net e.acquireOk s = .returned s
    ∧ check_website_run mp (e :: rest) s = check_website_run mp rest s := by
  have h1 : check_website_once mp e.t0 e.now e.net e.acquireOk s
      = .returned s := by
    rw [h]
    rfl
  refine ⟨h1, ?_⟩
  rw [check_website_run, h1]

/-- Witness for C5: a concrete network-failing cycle followed by an empty
remainder. -/
theorem c5_network_error_witness :
    check_website_once ⟨"http://example.test", 1, none⟩ 0 0
      NetworkOutcome.clientError true ⟨2, []⟩ = .returned ⟨2, []⟩ :=
  (c5_network_error_zero_rows_loop_resumes ⟨"http://example.test", 1, none⟩
    ⟨0, 0, .clientError, true⟩ [] ⟨2, []⟩ rfl).1

/-- C6: no failure at any phase of a probe cycle — network error,
persistence error, or the unanticipated TypeError — escapes
`check_website_once`: for every input the call never ends in a raised
exception, so the surrounding loop survives every cycle failure and goes
on to its next interval. -/
theorem c6_no_exception_escapes_cycle
    (mp : MonitorParams) (t0 now : Int) (net : NetworkOutcome)
    (aq : Bool) (s : CycleState) (e : PyError) (s1 : CycleState) :
    check_website_once mp t0 now net aq s ≠ .raised e s1 := by
  unfold check_website_once
  cases hb : check_website_once_body mp t0 now net aq s with
  | none => simp
  | some pr =>
    obtain ⟨s2, r⟩ := pr
    cases r with
    | ok u =>
      cases u
      simp
    | error err =>
      cases err <;> simp

/-- C7: starting from a gate of capacity cap shared by any number m of
monitor tasks, every reachable interleaving of the tasks has at most cap
of them inside the gated write section: a task enters it only by
acquiring a permit from a positive semaphore, and releases on every exit
path. -/
theorem c7_at_most_capacity_writers_in_flight
    (cap m : Nat) (g : GateSystem)
    (h : GateReachable (initSystem cap m) g) :
    writersInFlight g ≤ cap := by
  have hinv := gateInv_reachable h
  unfold gateInv at hinv
  omega

/-- Witness for C7: capacity 1, two tasks; after waking task 0 and
letting it acquire the gate, one writer is in flight, within capacity. -/
theorem c7_writers_in_flight_witness :
    writersInFlight ⟨0, [Phase.writing, Phase.sleeping]⟩ ≤ 1 :=
  c7_at_most_capacity_writers_in_flight 1 2
    ⟨0, [Phase.writing, Phase.sleeping]⟩
    (GateReachable.step
      (GateReachable.step GateReachable.refl
        (GateStep.wake 1 [Phase.sleeping, Phase.sleeping] 0 rfl))
      (GateStep.enterWrite 1 [Phase.probing, Phase.sleeping] 0 rfl
        (by decide)))

/-- C8: `create_table` is idempotent: on every schema it succeeds (never
an error), running it twice equals running it once, and starting from the
empty schema it leaves exactly one definition named website_metrics. -/
theorem c8_create_table_idempotent (db : DbSchema) :
    (∃ db1, create_table db = .ok db1)
    ∧ (create_table db).bind create_table = create_table db
    ∧ create_table ⟨[]⟩ = .ok ⟨[website_metrics_table]⟩
    ∧ List.countP (fun t => t.name == "website_metrics")
        [website_metrics_table] = 1 := by
  refine ⟨?_, ?_, rfl, rfl⟩
  · unfold create_table execCreateTable
    by_cases hany :
        db.tables.any (fun u => u.name == website_metrics_table.name) = true
    · exact ⟨db, by simp [hany]⟩
    · exact ⟨⟨db.tables ++ [website_metrics_table]⟩, by simp [hany]⟩
  · unfold create_table execCreateTable
    by_cases hany :
        db.tables.any (fun u => u.name == website_metrics_table.name) = true
    · simp [hany, Except.bind]
    · simp [hany, Except.bind, List.any_append]
